import Mathlib

/-!
Shallow embedding of the blog-report backend (src/main.py, src/schemas.py).

The flow modelled here is: login (credential check + token issue), token
verification, and report creation (schema validation, optional file write,
document insert).  External collaborators are modelled symbolically:

* bcrypt hashing (passlib) is modelled as an injective constructor
  `hashPassword`; `verify_password p h` holds exactly when `h` is the hash
  of `p`.  The source hashes `ADMIN_PASSWORD[:72]` at startup (main.py line
  30), which is kept as the `.take 72`.
* JWS tokens (python-jose) are modelled symbolically: a token is its payload
  together with the key it was signed under; decoding under a key succeeds
  exactly when the signing key matches.  The payload carries the fields the
  source puts in it: `sub` (optional string) and `exp_seconds` (a number;
  main.py line 78 stores `timedelta.total_seconds()`, a whole number of
  seconds here).
* the document store's `create_document` is modelled by recording the
  (collection, document) pairs the endpoint passes to it; the generated id
  is an input `newId` of the request environment.
* file writes are recorded as (path, bytes) pairs in the order performed.

Pydantic validation of `BlogReport` (schemas.py lines 244-255) happens at
construction; `mkBlogReport` returns an error exactly when a field
constraint fails.  `HttpUrl` validation is modelled by its scheme check:
a value passes only if it starts with `http://` or `https://` (pydantic
additionally checks host structure; the scheme requirement is what the
claims exercise, and a relative path such as `/uploads/x.png` fails it).
-/

namespace Backend

/-- An HTTP error response: status code and detail string
(FastAPI `HTTPException`). -/
structure HTTPError where
  statusCode : Nat
  detail : String
  deriving DecidableEq, Repr

/-- Process configuration (main.py lines 16-23): secret key, admin
username, admin password, and token TTL in minutes. -/
structure Config where
  secretKey : String
  adminUsername : String
  adminPassword : String
  accessTokenExpireMinutes : Nat
  deriving DecidableEq, Repr

/-- The default configuration when no environment variables are set
(main.py lines 16-23): `SECRET_KEY = "dev-secret-key-change-me"`,
`ADMIN_USERNAME = "admin"`, `ADMIN_PASSWORD = "admin123"`,
`ACCESS_TOKEN_EXPIRE_MINUTES = 60 * 12`. -/
def defaultConfig : Config :=
  ⟨"dev-secret-key-change-me", "admin", "admin123", 60 * 12⟩

/-- Symbolic bcrypt hash: a hash value is determined by (and determines)
the plaintext it was computed from. -/
structure PasswordHash where
  ofPlain : String
  deriving DecidableEq, Repr

/-- Symbolic `pwd_context.hash`. -/
def hashPassword (p : String) : PasswordHash := ⟨p⟩

/-- `verify_password` (main.py lines 63-67): passlib verification,
modelled as: the hash matches exactly the plaintext it was derived from.
Malformed-hash errors (the `except` branch) return `false`, which the
symbolic model subsumes. -/
def verify_password (plain : String) (hashed : PasswordHash) : Bool :=
  decide (hashed = hashPassword plain)

/-- The Python slice `s[:n]`: the first `n` characters of `s` (all of
`s` when it is shorter). -/
def stringTake (s : String) (n : Nat) : String := ⟨s.data.take n⟩

/-- `ADMIN_PASSWORD_HASH` in the startup branch where the env var is unset
(main.py lines 27-30): the hash of `ADMIN_PASSWORD[:72]`. -/
def adminPasswordHash (cfg : Config) : PasswordHash :=
  hashPassword (stringTake cfg.adminPassword 72)

/-- The authenticated-user value (main.py lines 44-45). -/
structure User where
  username : String
  deriving DecidableEq, Repr

/-- `authenticate_admin` (main.py lines 69-72). -/
def authenticate_admin (cfg : Config) (username password : String) : Option User :=
  if username = cfg.adminUsername ∧ verify_password password (adminPasswordHash cfg) = true then
    some ⟨username⟩
  else
    none

/-- A JWT payload as this application builds and reads it: the `sub` claim
(absent when the encoded dict carried none) and the `exp_seconds` number
(main.py line 78). -/
structure Payload where
  sub : Option String
  exp_seconds : Nat
  deriving DecidableEq, Repr

/-- Symbolic signed token: the payload together with the key it was signed
under.  Equality of tokens is byte-identity of the encoded JWT. -/
structure JwtToken where
  payload : Payload
  signKey : String
  deriving DecidableEq, Repr

/-- Symbolic `jwt.encode`. -/
def jwtEncode (p : Payload) (key : String) : JwtToken := ⟨p, key⟩

/-- Symbolic `jwt.decode`: signature check succeeds exactly when the
presented key is the token's signing key; otherwise a `JWTError`
(modelled as `none`). -/
def jwtDecode (t : JwtToken) (key : String) : Option Payload :=
  if t.signKey = key then some t.payload else none

/-- `create_access_token` (main.py lines 74-80): the encoded dict's `sub`
entry is `dataSub`; `expire` is the argument or the configured TTL
(`timedelta(minutes=ACCESS_TOKEN_EXPIRE_MINUTES)`); `exp_seconds` is its
`total_seconds()`, here in whole seconds.  Signed with the secret key. -/
def create_access_token (cfg : Config) (dataSub : Option String)
    (expiresDelta : Option Nat) : JwtToken :=
  let expire := expiresDelta.getD (cfg.accessTokenExpireMinutes * 60)
  jwtEncode ⟨dataSub, expire⟩ cfg.secretKey

/-- The 401 error raised for any token-verification failure
(main.py lines 83-87). -/
def credentialsException : HTTPError :=
  ⟨401, "Could not validate credentials"⟩

/-- `get_current_user` (main.py lines 82-98): decode the token with the
secret key (failure → 401); read the `sub` claim (absent → 401); reject
unless it equals the configured admin username. -/
def get_current_user (cfg : Config) (token : JwtToken) : Except HTTPError User :=
  match jwtDecode token cfg.secretKey with
  | none => .error credentialsException
  | some payload =>
    match payload.sub with
    | none => .error credentialsException
    | some username =>
      if username = cfg.adminUsername then .ok ⟨username⟩
      else .error credentialsException

/-- The login response body (main.py lines 37-39, 112). -/
structure TokenResponse where
  access_token : JwtToken
  token_type : String
  deriving DecidableEq, Repr

/-- `login` (main.py lines 106-112): authenticate, 400 with a generic
detail on failure, otherwise issue a token with `sub` = the username. -/
def login (cfg : Config) (username password : String) :
    Except HTTPError TokenResponse :=
  match authenticate_admin cfg username password with
  | none => .error ⟨400, "Incorrect username or password"⟩
  | some user => .ok ⟨create_access_token cfg (some user.username) none, "bearer"⟩

/-- `login` with the wall-clock instant of the request made explicit.
The source handler (main.py lines 106-112) and `create_access_token`
(lines 74-80) never read a clock or a nonce — the payload is only
`sub` and the constant `exp_seconds` — so the instant is an unused
argument, exactly as in the code. -/
def loginAt (cfg : Config) (username password : String) (_now : Nat) :
    Except HTTPError TokenResponse :=
  login cfg username password

/-- The `BlogReport` record (schemas.py lines 244-255), fields in source
order. -/
structure BlogReport where
  title : String
  category : String
  image_url : Option String
  excerpt : Option String
  content : String
  author : Option String
  status : String
  deriving DecidableEq, Repr

/-- Pydantic `HttpUrl` scheme check: the value must be an absolute
http(s) URL.  A relative path has no scheme and fails. -/
def isValidHttpUrl (s : String) : Bool :=
  "http://".data.isPrefixOf s.data || "https://".data.isPrefixOf s.data

/-- Membership in the category `Literal` (schemas.py line 250), also the
list tested on main.py line 140. -/
def categoryOk (c : String) : Bool :=
  c = "Kebabs" || c = "Burgers" || c = "Restaurants"

/-- Membership in the status `Literal` (schemas.py line 255). -/
def statusOk (s : String) : Bool :=
  s = "draft" || s = "published"

/-- The conjunction of the `BlogReport` field constraints
(schemas.py lines 249-255): title length 3-140, category in its
enumeration, image_url (when present) a valid http(s) URL, excerpt (when
present) at most 280 characters, content at least 10 characters, status
in its enumeration.  `author` is an unconstrained optional string. -/
def blogReportValid (r : BlogReport) : Bool :=
  decide (3 ≤ r.title.length) && decide (r.title.length ≤ 140) &&
  categoryOk r.category &&
  r.image_url.all isValidHttpUrl &&
  (r.excerpt.all fun e => decide (e.length ≤ 280)) &&
  decide (10 ≤ r.content.length) &&
  statusOk r.status

/-- Pydantic model construction: `BlogReport(...)` validates at
construction and raises `ValidationError` when a field constraint
fails. -/
def mkBlogReport (title category : String) (image_url excerpt : Option String)
    (content : String) (author : Option String) (stat : String) :
    Except String BlogReport :=
  let r : BlogReport := ⟨title, category, image_url, excerpt, content, author, stat⟩
  if blogReportValid r then .ok r else .error "ValidationError"

/-- An uploaded file: original filename and content bytes. -/
structure UploadFile where
  filename : String
  bytes : List Nat
  deriving DecidableEq, Repr

/-- One file write performed by the endpoint: destination path and bytes. -/
structure FileWrite where
  path : String
  data : List Nat
  deriving DecidableEq, Repr

/-- The success response body of the report endpoint (main.py line 148). -/
structure ReportResponse where
  id : String
  image_url : Option String
  deriving DecidableEq, Repr

/-- Everything observable about one report request: the file writes
performed, the (collection, document) pairs passed to `create_document`,
and the HTTP result.  An uncaught pydantic `ValidationError` inside the
handler surfaces as a 500 response. -/
structure ReportOutcome where
  fileWrites : List FileWrite
  inserts : List (String × BlogReport)
  result : Except HTTPError ReportResponse

/-- The response produced when an exception escapes the handler. -/
def internalServerError : HTTPError := ⟨500, "Internal Server Error"⟩

/-- `str.replace` for a single-character pattern: every occurrence of the
character is substituted. -/
def replaceChar (s : String) (a b : Char) : String :=
  ⟨s.data.map fun c => if c = a then b else c⟩

/-- Filename sanitization (main.py line 132):
`image.filename.replace("/", "_").replace("\\", "_")`.  Both patterns are
single characters, so each `replace` substitutes that character wherever
it occurs. -/
def safeName (filename : String) : String :=
  replaceChar (replaceChar filename '/' '_') '\\' '_'

/-- The category coercion on main.py line 140:
`category if category in ["Kebabs", "Burgers", "Restaurants"] else "Restaurants"`. -/
def coerceCategory (category : String) : String :=
  if categoryOk category then category else "Restaurants"

/-- `create_report` (main.py lines 114-148).  The `get_current_user`
dependency runs before the handler body; its failure produces a 401 with
no file write and no insert.  Otherwise: if an image is attached, its
bytes are written to `/tmp/uploads/<sanitized name>` and the pseudo URL
`/uploads/<sanitized name>` is computed; then the `BlogReport` is
constructed (category coerced, `author="admin"`, `status="published"`)
— a validation failure at this point aborts with no insert, after any
file write already performed — and on success the document is passed to
`create_document("blogreport", doc)` and `{id, image_url}` returned.
`newId` is the id the document store assigns. -/
def create_report (cfg : Config) (title category : String)
    (excerpt : Option String) (content : String) (image : Option UploadFile)
    (token : JwtToken) (newId : String) : ReportOutcome :=
  match get_current_user cfg token with
  | .error e => ⟨[], [], .error e⟩
  | .ok _user =>
    match image with
    | none =>
      match mkBlogReport title (coerceCategory category) none excerpt content
          (some "admin") "published" with
      | .error _ => ⟨[], [], .error internalServerError⟩
      | .ok doc => ⟨[], [("blogreport", doc)], .ok ⟨newId, none⟩⟩
    | some img =>
      let sn := safeName img.filename
      let imageUrl := "/uploads/" ++ sn
      let writes := [FileWrite.mk ("/tmp/uploads/" ++ sn) img.bytes]
      match mkBlogReport title (coerceCategory category) (some imageUrl) excerpt
          content (some "admin") "published" with
      | .error _ => ⟨writes, [], .error internalServerError⟩
      | .ok doc => ⟨writes, [("blogreport", doc)], .ok ⟨newId, some imageUrl⟩⟩

/-- A token as issued by a successful login under the default
configuration. -/
def validTok : JwtToken := create_access_token defaultConfig (some "admin") none

/-- A configuration whose `ADMIN_USERNAME` environment variable is set to
`alice` (everything else default). -/
def aliceCfg : Config := ⟨"dev-secret-key-change-me", "alice", "admin123", 60 * 12⟩

/-- A token as issued by a successful login under `aliceCfg`. -/
def aliceTok : JwtToken := create_access_token aliceCfg (some "alice") none

/-! ## Helper lemmas -/

theorem verify_password_iff (cfg : Config) (p : String)
    (htrunc : stringTake cfg.adminPassword 72 = cfg.adminPassword) :
    verify_password p (adminPasswordHash cfg) = true ↔ p = cfg.adminPassword := by
  unfold verify_password adminPasswordHash hashPassword
  rw [htrunc]
  simp [PasswordHash.mk.injEq, eq_comm]

theorem mkBlogReport_ok_inv {title category : String}
    {image_url excerpt : Option String} {content : String}
    {author : Option String} {stat : String} {r : BlogReport}
    (h : mkBlogReport title category image_url excerpt content author stat = .ok r) :
    r = ⟨title, category, image_url, excerpt, content, author, stat⟩ ∧
    blogReportValid r = true := by
  unfold mkBlogReport at h
  dsimp only at h
  split at h
  · next hv =>
    cases h
    exact ⟨rfl, hv⟩
  · cases h

theorem create_report_inserts_shape (cfg : Config) (title category : String)
    (excerpt : Option String) (content : String) (image : Option UploadFile)
    (token : JwtToken) (newId : String) (d : String × BlogReport)
    (hd : d ∈ (create_report cfg title category excerpt content image token newId).inserts) :
    d.1 = "blogreport" ∧ blogReportValid d.2 = true ∧
    d.2.author = some "admin" ∧ d.2.status = "published" := by
  unfold create_report at hd
  split at hd
  · simp at hd
  · split at hd
    · split at hd
      · simp at hd
      · next doc heq =>
        simp only [List.mem_singleton] at hd
        subst hd
        obtain ⟨hdoc, hval⟩ := mkBlogReport_ok_inv heq
        subst hdoc
        exact ⟨rfl, hval, rfl, rfl⟩
    · dsimp only at hd
      split at hd
      · simp at hd
      · next doc heq =>
        simp only [List.mem_singleton] at hd
        subst hd
        obtain ⟨hdoc, hval⟩ := mkBlogReport_ok_inv heq
        subst hdoc
        exact ⟨rfl, hval, rfl, rfl⟩

/-! ## Claim theorems -/

/-- C1 (counterexample): with title `"ab"` (length 2) and an image
attached, the request is rejected with no insert — but the file write
has already happened, contradicting the claim that rejection precedes
any file write. -/
theorem short_title_with_image_still_writes :
    (create_report defaultConfig "ab" "Kebabs" none "Ten chars content!"
        (some ⟨"pic.png", [1, 2]⟩) validTok "id2").fileWrites ≠ [] ∧
    (create_report defaultConfig "ab" "Kebabs" none "Ten chars content!"
        (some ⟨"pic.png", [1, 2]⟩) validTok "id2").fileWrites
      = [⟨"/tmp/uploads/pic.png", [1, 2]⟩] ∧
    (create_report defaultConfig "ab" "Kebabs" none "Ten chars content!"
        (some ⟨"pic.png", [1, 2]⟩) validTok "id2").inserts = [] ∧
    (create_report defaultConfig "ab" "Kebabs" none "Ten chars content!"
        (some ⟨"pic.png", [1, 2]⟩) validTok "id2").result
      = .error internalServerError := by
  refine ⟨?_, rfl, rfl, rfl⟩
  decide

/-- C1 (amended): a submission whose title has length 2 is always
rejected before any document is inserted into the store; when an image
attachment is present, however, the file write happens before the
validation failure, because validation runs only at record construction,
after the upload handling. -/
theorem short_title_rejected_before_insert (cfg : Config)
    (title category : String) (excerpt : Option String) (content : String)
    (image : Option UploadFile) (token : JwtToken) (newId : String)
    (htitle : title.length = 2) :
    (create_report cfg title category excerpt content image token newId).inserts = [] ∧
    ∃ e, (create_report cfg title category excerpt content image token newId).result
      = .error e := by
  have hmk : ∀ (img exc : Option String),
      mkBlogReport title (coerceCategory category) img exc content
        (some "admin") "published" = .error "ValidationError" := by
    intro img exc
    unfold mkBlogReport
    dsimp only
    rw [if_neg]
    simp [blogReportValid, htitle]
  unfold create_report
  cases hga : get_current_user cfg token with
  | error e => exact ⟨rfl, e, rfl⟩
  | ok u =>
    cases image with
    | none =>
      rw [hmk]
      exact ⟨rfl, internalServerError, rfl⟩
    | some img =>
      dsimp only
      rw [hmk]
      exact ⟨rfl, internalServerError, rfl⟩

/-- C1 (witness for the amended theorem) at title `"ab"`. -/
theorem short_title_rejected_before_insert_witness :
    (create_report defaultConfig "ab" "Kebabs" none "Ten chars content!"
        none validTok "id3").inserts = [] ∧
    ∃ e, (create_report defaultConfig "ab" "Kebabs" none "Ten chars content!"
        none validTok "id3").result = .error e :=
  short_title_rejected_before_insert defaultConfig "ab" "Kebabs" none
    "Ten chars content!" none validTok "id3" rfl

/-- C2: an authenticated submission with image filename `a/b.png` does
write the file at the sanitized path `/tmp/uploads/a_b.png`, but the
operation then fails: the computed `image_url` `/uploads/a_b.png` is a
relative path and fails the record schema's `HttpUrl` validation, so the
record is never inserted and the request errors instead of returning the
sanitized `image_url`. -/
theorem image_upload_fails_on_url_validation :
    create_report defaultConfig "A fine kebab" "Kebabs" none
        "Ten chars content!" (some ⟨"a/b.png", [7, 8]⟩) validTok "id1"
      = ⟨[⟨"/tmp/uploads/a_b.png", [7, 8]⟩], [], .error internalServerError⟩ := by
  rfl

/-- C4: a token issued by `create_access_token` with subject the
configured admin username is accepted by `get_current_user`, yielding
the admin identity — for every configuration. -/
theorem issued_token_roundtrip (cfg : Config) :
    get_current_user cfg (create_access_token cfg (some cfg.adminUsername) none)
      = .ok ⟨cfg.adminUsername⟩ := by
  simp [get_current_user, create_access_token, jwtEncode, jwtDecode]

/-- C8: token issuance embeds the subject and the configured TTL
(in seconds, `ACCESS_TOKEN_EXPIRE_MINUTES * 60`) as a plain numeric
payload field, and verification succeeds for every validly-signed token
whose subject is the admin username, whatever the embedded
`exp_seconds` value — no expiry is ever enforced. -/
theorem ttl_recorded_never_enforced (cfg : Config) (ttl : Nat) :
    (create_access_token cfg (some cfg.adminUsername) none).payload
      = ⟨some cfg.adminUsername, cfg.accessTokenExpireMinutes * 60⟩ ∧
    get_current_user cfg ⟨⟨some cfg.adminUsername, ttl⟩, cfg.secretKey⟩
      = .ok ⟨cfg.adminUsername⟩ := by
  refine ⟨rfl, ?_⟩
  simp [get_current_user, jwtDecode]

/-- C3: login succeeds — returning a bearer token whose subject decodes
to the username — exactly when the submitted pair equals the configured
admin pair; every other pair gets the single generic 400 detail
"Incorrect username or password".  The hypothesis says the configured
password is not truncated by the startup `[:72]` slice (it holds for any
password of at most 72 characters, in particular the default). -/
theorem login_succeeds_iff_admin_pair (cfg : Config) (u p : String)
    (htrunc : stringTake cfg.adminPassword 72 = cfg.adminPassword) :
    (u = cfg.adminUsername ∧ p = cfg.adminPassword →
      login cfg u p = .ok ⟨create_access_token cfg (some u) none, "bearer"⟩ ∧
      jwtDecode (create_access_token cfg (some u) none) cfg.secretKey
        = some ⟨some u, cfg.accessTokenExpireMinutes * 60⟩) ∧
    (¬(u = cfg.adminUsername ∧ p = cfg.adminPassword) →
      login cfg u p = .error ⟨400, "Incorrect username or password"⟩) := by
  have hv := verify_password_iff cfg p htrunc
  constructor
  · rintro ⟨hu, hp⟩
    have hauth : authenticate_admin cfg u p = some ⟨u⟩ := by
      unfold authenticate_admin
      rw [if_pos ⟨hu, hv.mpr hp⟩]
    unfold login
    rw [hauth]
    exact ⟨rfl, by simp [create_access_token, jwtEncode, jwtDecode]⟩
  · intro hne
    have hauth : authenticate_admin cfg u p = none := by
      unfold authenticate_admin
      rw [if_neg]
      rintro ⟨hu, hvp⟩
      exact hne ⟨hu, hv.mp hvp⟩
    unfold login
    rw [hauth]

/-- C3 (witness): under the default configuration, the admin pair logs
in and a wrong password gets the generic 400. -/
theorem login_succeeds_iff_admin_pair_witness :
    (login defaultConfig "admin" "admin123"
        = .ok ⟨create_access_token defaultConfig (some "admin") none, "bearer"⟩) ∧
    login defaultConfig "admin" "wrong-pass"
        = .error ⟨400, "Incorrect username or password"⟩ :=
  ⟨((login_succeeds_iff_admin_pair defaultConfig "admin" "admin123"
      (by decide)).1 ⟨rfl, rfl⟩).1,
   (login_succeeds_iff_admin_pair defaultConfig "admin" "wrong-pass"
      (by decide)).2 (by decide)⟩

/-- C5: a token signed under a different key, or whose subject is not
exactly the configured admin username, is rejected by verification with
the generic 401, and the report endpoint performs no file write and no
insert for such a request. -/
theorem invalid_token_always_rejected (cfg : Config) (token : JwtToken)
    (h : token.signKey ≠ cfg.secretKey ∨ token.payload.sub ≠ some cfg.adminUsername) :
    get_current_user cfg token = .error credentialsException ∧
    ∀ (title category : String) (excerpt : Option String) (content : String)
      (image : Option UploadFile) (newId : String),
      create_report cfg title category excerpt content image token newId
        = ⟨[], [], .error credentialsException⟩ := by
  have hga : get_current_user cfg token = .error credentialsException := by
    by_cases hk : token.signKey = cfg.secretKey
    · rcases h with h | h
      · exact absurd hk h
      · cases hsub : token.payload.sub with
        | none => simp [get_current_user, jwtDecode, hk, hsub]
        | some u =>
          have hu : u ≠ cfg.adminUsername := by
            intro he
            rw [hsub, he] at h
            exact h rfl
          simp [get_current_user, jwtDecode, hk, hsub, hu]
    · simp [get_current_user, jwtDecode, hk]
  refine ⟨hga, ?_⟩
  intro title category excerpt content image newId
  unfold create_report
  rw [hga]

/-- C5 (witness): a token signed under a different key is rejected and
causes no side effect at the report endpoint. -/
theorem invalid_token_always_rejected_witness :
    get_current_user defaultConfig ⟨⟨some "admin", 43200⟩, "other-key"⟩
      = .error credentialsException ∧
    create_report defaultConfig "A fine kebab" "Kebabs" none
        "Ten chars content!" none ⟨⟨some "admin", 43200⟩, "other-key"⟩ "id5"
      = ⟨[], [], .error credentialsException⟩ :=
  ⟨(invalid_token_always_rejected defaultConfig ⟨⟨some "admin", 43200⟩, "other-key"⟩
      (Or.inl (by decide))).1,
   (invalid_token_always_rejected defaultConfig ⟨⟨some "admin", 43200⟩, "other-key"⟩
      (Or.inl (by decide))).2 "A fine kebab" "Kebabs" none
      "Ten chars content!" none "id5"⟩

/-- C6: an authenticated submission whose category is not one of the
three recognized values is not rejected — the record is inserted with
the default category "Restaurants" in its place. -/
theorem unrecognized_category_coerced (cfg : Config)
    (title category content : String) (token : JwtToken) (newId : String)
    (hkey : token.signKey = cfg.secretKey)
    (hsub : token.payload.sub = some cfg.adminUsername)
    (ht1 : 3 ≤ title.length) (ht2 : title.length ≤ 140)
    (hc : 10 ≤ content.length) (hcat : categoryOk category = false) :
    create_report cfg title category none content none token newId
      = ⟨[], [("blogreport",
            ⟨title, "Restaurants", none, none, content, some "admin", "published"⟩)],
          .ok ⟨newId, none⟩⟩ := by
  have hga : get_current_user cfg token = .ok ⟨cfg.adminUsername⟩ := by
    simp [get_current_user, jwtDecode, hkey, hsub]
  have hcoerce : coerceCategory category = "Restaurants" := by
    simp [coerceCategory, hcat]
  have hvalid : blogReportValid
      ⟨title, "Restaurants", none, none, content, some "admin", "published"⟩ = true := by
    have h1 : decide (3 ≤ title.length) = true := decide_eq_true ht1
    have h2 : decide (title.length ≤ 140) = true := decide_eq_true ht2
    have h3 : decide (10 ≤ content.length) = true := decide_eq_true hc
    unfold blogReportValid
    dsimp only
    rw [h1, h2, h3]
    rfl
  have hmk : mkBlogReport title (coerceCategory category) none none content
      (some "admin") "published"
      = .ok ⟨title, "Restaurants", none, none, content, some "admin", "published"⟩ := by
    rw [hcoerce]
    unfold mkBlogReport
    dsimp only
    rw [if_pos hvalid]
  unfold create_report
  rw [hga, hmk]

/-- C6 (witness): `category="Pizza"` is stored as "Restaurants". -/
theorem unrecognized_category_coerced_witness :
    create_report defaultConfig "My pizza spot" "Pizza" none
        "Content long enough" none validTok "id4"
      = ⟨[], [("blogreport",
            ⟨"My pizza spot", "Restaurants", none, none, "Content long enough",
              some "admin", "published"⟩)],
          .ok ⟨"id4", none⟩⟩ :=
  unrecognized_category_coerced defaultConfig "My pizza spot" "Pizza"
    "Content long enough" validTok "id4" rfl rfl (by decide) (by decide)
    (by decide) (by decide)

/-- C7 (counterexample): with `ADMIN_USERNAME` configured as "alice",
an authenticated submission is inserted with author "admin" — the
literal on main.py line 144 — not the configured admin username. -/
theorem author_not_configured_username :
    (create_report aliceCfg "Great kebab" "Kebabs" none "Lovely content here"
        none aliceTok "id7").inserts.map (fun d => d.2.author) = [some "admin"] ∧
    (some "admin" : Option String) ≠ some aliceCfg.adminUsername := by
  exact ⟨rfl, by decide⟩

/-- C7 (amended): every record the report endpoint inserts has author
equal to the literal string "admin" (which coincides with the configured
admin username only when that configuration is "admin") and status
"published". -/
theorem inserted_author_literal_admin (cfg : Config) (title category : String)
    (excerpt : Option String) (content : String) (image : Option UploadFile)
    (token : JwtToken) (newId : String) (d : String × BlogReport)
    (hd : d ∈ (create_report cfg title category excerpt content image token newId).inserts) :
    d.2.author = some "admin" ∧ d.2.status = "published" := by
  have h := create_report_inserts_shape cfg title category excerpt content
    image token newId d hd
  exact ⟨h.2.2.1, h.2.2.2⟩

/-- C7 (witness for the amended theorem). -/
theorem inserted_author_literal_admin_witness :
    ("blogreport",
        (⟨"Great kebab", "Kebabs", none, none, "Lovely content here",
          some "admin", "published"⟩ : BlogReport)).2.author = some "admin" ∧
    ("blogreport",
        (⟨"Great kebab", "Kebabs", none, none, "Lovely content here",
          some "admin", "published"⟩ : BlogReport)).2.status = "published" :=
  inserted_author_literal_admin defaultConfig "Great kebab" "Kebabs" none
    "Lovely content here" none validTok "id8"
    ("blogreport",
      ⟨"Great kebab", "Kebabs", none, none, "Lovely content here",
        some "admin", "published"⟩)
    (by decide)

/-- C9: every (collection, document) pair the report endpoint passes to
`create_document` goes to collection "blogreport" and satisfies all the
`BlogReport` schema constraints (`blogReportValid`: title length 3-140,
category in the enumeration, any image_url a valid http(s) URL, any
excerpt at most 280 characters, content at least 10 characters, status
in the enumeration), with status "published" and author "admin": no
request makes an out-of-schema record reach the insert call. -/
theorem inserted_documents_satisfy_schema (cfg : Config)
    (title category : String) (excerpt : Option String) (content : String)
    (image : Option UploadFile) (token : JwtToken) (newId : String)
    (d : String × BlogReport)
    (hd : d ∈ (create_report cfg title category excerpt content image token newId).inserts) :
    d.1 = "blogreport" ∧ blogReportValid d.2 = true ∧
    d.2.status = "published" ∧ d.2.author = some "admin" := by
  have h := create_report_inserts_shape cfg title category excerpt content
    image token newId d hd
  exact ⟨h.1, h.2.1, h.2.2.2, h.2.2.1⟩

/-- C9 (witness). -/
theorem inserted_documents_satisfy_schema_witness :
    ("blogreport",
        (⟨"Burger joint review", "Burgers", none, none,
          "A very detailed burger review", some "admin", "published"⟩ : BlogReport)).1
      = "blogreport" ∧
    blogReportValid ("blogreport",
        (⟨"Burger joint review", "Burgers", none, none,
          "A very detailed burger review", some "admin", "published"⟩ : BlogReport)).2
      = true ∧
    ("blogreport",
        (⟨"Burger joint review", "Burgers", none, none,
          "A very detailed burger review", some "admin", "published"⟩ : BlogReport)).2.status
      = "published" ∧
    ("blogreport",
        (⟨"Burger joint review", "Burgers", none, none,
          "A very detailed burger review", some "admin", "published"⟩ : BlogReport)).2.author
      = some "admin" :=
  inserted_documents_satisfy_schema defaultConfig "Burger joint review"
    "Burgers" none "A very detailed burger review" none validTok "id9"
    ("blogreport",
      ⟨"Burger joint review", "Burgers", none, none,
        "A very detailed burger review", some "admin", "published"⟩)
    (by decide)

/-- C10: the login flow reads no clock and no nonce (`loginAt` carries
the request instant explicitly, and its body, like the source, never
uses it), so two logins with the same credentials at any two instants
produce identical responses — in particular byte-identical tokens. -/
theorem login_time_invariant (cfg : Config) (u p : String) (t1 t2 : Nat) :
    loginAt cfg u p t1 = loginAt cfg u p t2 := rfl

end Backend
